import Mathlib

/-!
Verification of the DeyeCloud Home Assistant integration
(`custom_components/deyecloud`): a shallow embedding, in Lean, of the
data-refresh and entity-projection pipeline of `sensor.py` and `api.py`,
together with theorems settling the specification claims.

Conventions of the embedding:
* JSON response bodies are records; `j.get("success")` truthiness is a `Bool`
  (an absent or non-true field is `false`), `j.get("msg")` is a `String`.
* A Python `raise` is an `Except.error` carrying the exception's message.
* Numeric readings are passed through opaquely; they are modelled as `Int`.
* Calendar months are counted as a single `Nat` index (`12 * year + (month-1)`),
  which is faithful for first-of-month dates as used by the history window
  walker (both bounds are first-of-month `datetime`s).
* `asyncio.gather(..., return_exceptions=True)` is modelled as the list of the
  per-task outcomes, one `Except` per task, in task order: the join waits for
  every task and exceptions are returned in place, never propagated.
-/

namespace DeyeCloud

/-- Numeric reading passed through from the provider; never computed with. -/
abbrev Val := Int

/-! ## Decimal rendering of numbers (Python `str(int)` / `f"{m:02d}"`) -/

/-- Little-endian decimal digits, by fuel (`fuel ≥ n` suffices). -/
def digitsLEAux : Nat → Nat → List Nat
  | 0, _ => []
  | _ + 1, 0 => []
  | fuel + 1, n + 1 => (n + 1) % 10 :: digitsLEAux fuel ((n + 1) / 10)

/-- Little-endian decimal digits of `n` (empty for 0). -/
def digitsLE (n : Nat) : List Nat := digitsLEAux n n

/-- Value of a little-endian digit list. -/
def parseLE : List Nat → Nat
  | [] => 0
  | d :: ds => d + 10 * parseLE ds

/-- The character of a decimal digit. -/
def digitChar (d : Nat) : Char := Char.ofNat (48 + d)

/-- The decimal digit of a character (inverse of `digitChar` on digits). -/
def charDigit (c : Char) : Nat := c.toNat - 48

/-- Whether a character is a decimal digit. -/
def isDig (c : Char) : Bool := decide (48 ≤ c.toNat) && decide (c.toNat ≤ 57)

/-- Python `str(n)` for a non-negative integer, as a character list. -/
def reprChars (n : Nat) : List Char :=
  if n = 0 then ['0'] else ((digitsLE n).map digitChar).reverse

/-- Python `f"{m:02d}"`: zero-pad to two characters. -/
def pad2Chars (m : Nat) : List Char :=
  if m < 10 then '0' :: reprChars m else reprChars m

/-- Python `str(n)` as a `String`. -/
def natStr (n : Nat) : String := String.mk (reprChars n)

/-! ## Monthly-raw unique identifiers (`sensor.py` line 392:
`uid = f"{station_id}_raw_{y}_{m}"` with `y = item["year"]` and
`m = f"{item['month']:02d}"`). -/

/-- Python `f"{station_id}_raw_{y}_{m}"` as a character list. -/
def monthlyRawUid (sid : List Char) (y m : Nat) : List Char :=
  sid ++ '_' :: 'r' :: 'a' :: 'w' :: '_' :: (reprChars y ++ '_' :: pad2Chars m)

/-- Decoder for a REVERSED monthly-raw uid: recovers `(month, year, reversed
station id)`.  Reading from the end of the uid: two month digits, `'_'`, the
year digits, then the literal `"_raw_"`, then the station id. -/
def decodeRev (l : List Char) : Option (Nat × Nat × List Char) :=
  match l with
  | a :: b :: u :: rest =>
    if u = '_' then
      match rest.takeWhile isDig, rest.dropWhile isDig with
      | y0 :: ys, u1 :: w :: a1 :: r :: u2 :: srev =>
        if u1 = '_' ∧ w = 'w' ∧ a1 = 'a' ∧ r = 'r' ∧ u2 = '_' then
          some (10 * charDigit b + charDigit a,
                parseLE ((y0 :: ys).map charDigit), srev)
        else none
      | _, _ => none
    else none
  | _ => none

/-! ## Provider envelopes and the Cloud Client calls -/

/-- The provider's success/failure envelope `{success, msg, <payload>}`. -/
structure ApiEnvelope (α : Type) where
  success : Bool
  msg : String
  payload : α
deriving DecidableEq

/-- A station record; `id`/`stationId` as the rendered strings (absent = none).
Python falsiness of an empty string is handled at the use sites. -/
structure Station where
  id : Option String
  stationId : Option String
deriving DecidableEq

/-- One monthly history record (`stationDataItems` entry, granularity 3);
absent metric fields are `none`, never zero. -/
structure MonthItem where
  year : Nat
  month : Nat
  generationValue : Option Val
  consumptionValue : Option Val
  gridValue : Option Val
  purchaseValue : Option Val
  chargeValue : Option Val
  dischargeValue : Option Val
deriving DecidableEq

/-- One daily history record (`stationDataItems` entry, granularity 2). -/
structure DayItem where
  generationValue : Option Val
  consumptionValue : Option Val
  gridValue : Option Val
  purchaseValue : Option Val
  chargeValue : Option Val
  dischargeValue : Option Val
deriving DecidableEq

/-- A `deviceListItems` entry of the `station/device` response. -/
structure DeviceListItem where
  deviceSn : String
  deviceType : Option String
deriving DecidableEq

/-- One `dataList` telemetry entry of the `device/latest` response. -/
structure DeviceDatum where
  key : String
  value : Val
  unit : String
deriving DecidableEq

/-- A `deviceDataList` entry of the `device/latest` response. -/
structure DeviceData where
  deviceSn : Option String
  deviceType : Option String
  deviceState : Option String
  collectionTime : Option String
  dataList : List DeviceDatum
deriving DecidableEq

/-- Source `_async_get_token` / `api.async_get_token`: raise on a non-success body,
else return the access token (the payload). -/
def getToken (r : ApiEnvelope String) : Except String String :=
  if r.success then Except.ok r.payload
  else Except.error ("Token request failed: " ++ r.msg)

/-- Source `_async_station_list` (`sensor.py` lines 50-58): returns
`j.get("stationList", [])` WITHOUT inspecting the success flag. -/
def stationListCall (r : ApiEnvelope (List Station)) : Except String (List Station) :=
  Except.ok r.payload

/-- The body unwrap of one monthly-history chunk request (`_async_history`,
lines 76-82): raise on a non-success body, else the `stationDataItems`. -/
def historyCall (r : ApiEnvelope (List MonthItem)) : Except String (List MonthItem) :=
  if r.success then Except.ok r.payload
  else Except.error ("History request failed: " ++ r.msg)

/-- Source `_async_daily_history` (lines 87-105). -/
def dailyHistoryCall (r : ApiEnvelope (List DayItem)) : Except String (List DayItem) :=
  if r.success then Except.ok r.payload
  else Except.error ("Daily history request failed: " ++ r.msg)

/-- The body unwrap of `_async_get_device_list` (lines 121-128): raise on a
non-success body, else the serials of the INVERTER-type devices. -/
def deviceListCall (r : ApiEnvelope (List DeviceListItem)) : Except String (List String) :=
  if r.success then
    Except.ok ((r.payload.filter (fun d => d.deviceType = some "INVERTER")).map
      (fun d => d.deviceSn))
  else Except.error ("Device list request failed: " ++ r.msg)

/-- Source `_async_get_device_status` (lines 130-142). -/
def deviceStatusCall (r : ApiEnvelope (List DeviceData)) : Except String (List DeviceData) :=
  if r.success then Except.ok r.payload
  else Except.error ("Device status request failed: " ++ r.msg)

/-! ## History window walker (`_async_history`, lines 60-85)

Months are indexed by `monthIndex`; the loop
`while start <= end: range_end = min(start + 11 months, end); ...;
start = range_end + 1 month` becomes `chunksAux`, with fuel bounding the
iteration count (each iteration advances `start` by at least one month). -/

/-- Index of a calendar month on the month axis. -/
def monthIndex (y m : Nat) : Nat := 12 * y + (m - 1)

/-- The chunk windows `(range_start, range_end)` issued by the loop, by fuel. -/
def chunksAux : Nat → Nat → Nat → List (Nat × Nat)
  | 0, _, _ => []
  | fuel + 1, s, e =>
    if s ≤ e then (s, min (s + 11) e) :: chunksAux fuel (min (s + 11) e + 1) e
    else []

/-- The chunk windows issued for the inclusive month range `[s, e]`
(`e + 1 - s` fuel suffices: each iteration consumes at least one month). -/
def historyChunks (s e : Nat) : List (Nat × Nat) := chunksAux (e + 1 - s) s e

/-! ## Last-known-good retention on a failed per-entity update
(`_BasicSensor.async_update`, lines 300-303) -/

/-- Python `d[k] = v` on a string-keyed dict rendered as an association list:
overwrite an existing entry in place, otherwise append. -/
def dictInsert (d : List (String × String)) (k v : String) : List (String × String) :=
  if (d.map Prod.fst).contains k then
    d.map (fun p => if p.1 = k then (p.1, v) else p)
  else d ++ [(k, v)]

/-- Dict lookup on the association-list rendering. -/
def lookupAttr (d : List (String × String)) (k : String) : Option String :=
  (d.find? (fun p => p.1 = k)).map Prod.snd

/-- The per-entity state touched by the `except` branch. -/
structure SensorState where
  value : Option Val
  attrs : List (String × String)
deriving DecidableEq

/-- The `except Exception as exc:` branch of `async_update`:
`self._attr_native_value = None;
self._attr_extra_state_attributes["last_update_error"] = str(exc)`. -/
def updateOnError (s : SensorState) (err : String) : SensorState :=
  { value := none, attrs := dictInsert s.attrs "last_update_error" err }

/-! ## Token caching across update calls (`async_update`, lines 220-221) -/

/-- One `async_update` invocation, as seen by the token logic: the wall-clock
time of the call (which the implementation never reads for token decisions)
and the token the endpoint would mint if asked now. -/
structure UpdateCall where
  time : Nat
  fresh : String
deriving DecidableEq

/-- Source `if not self._token: self._token = await _async_get_token(...)`:
a falsy cached token (`None` or `""`) is replaced, anything else is reused.
Returns the token used for this call and the cached state afterwards. -/
def ensureToken (cached : Option String) (fresh : String) : String × Option String :=
  match cached with
  | none => (fresh, some fresh)
  | some t => if t = "" then (fresh, some fresh) else (t, some t)

/-- Run a sequence of update calls; returns the token used by each call and
the final cached token. -/
def runUpdates : Option String → List UpdateCall → List String × Option String
  | st, [] => ([], st)
  | st, c :: cs =>
    let r := ensureToken st c.fresh
    let rest := runUpdates r.2 cs
    (r.1 :: rest.1, rest.2)

/-! ## Refresh orchestrator (`async_setup_entry`, lines 305-552) -/

/-- A projected sensor entity (`_BasicSensor` constructor arguments that the
claims observe: display name, unique id, value, unit). -/
structure Entity where
  name : String
  uid : String
  value : Val
  unit : Option String
deriving DecidableEq

/-- The fixed calendar context computed once per cycle from `datetime.now()`
(lines 339-346): current and previous (year, month) and the three trailing
dates already rendered as `%Y-%m-%d` strings. -/
structure NowCtx where
  thisYear : Nat
  thisMonth : Nat
  prevYear : Nat
  prevMonth : Nat
  today : String
  yesterday : String
  dayBeforeYesterday : String

/-- One cycle's provider, as response bodies per request; a call that raises
for transport reasons is modelled by a non-success envelope. The monthly
chunk loop is collapsed to one response per station: any chunk failing fails
the station's history fetch. -/
structure Net where
  tokenResp : ApiEnvelope String
  stationsResp : ApiEnvelope (List Station)
  historyResp : String → ApiEnvelope (List MonthItem)
  dailyResp : String → String → ApiEnvelope (List DayItem)
  deviceListResp : List String → ApiEnvelope (List DeviceListItem)
  deviceStatusResp : List String → ApiEnvelope (List DeviceData)

/-- Python `a or b` over optional strings: an absent or empty `a` falls
through to `b`. -/
def orFalsy (a b : Option String) : Option String :=
  match a with
  | some s => if s = "" then b else some s
  | none => b

/-- Source `station_id = st.get("id") or st.get("stationId")` followed by the
truthiness guard `if not station_id` (lines 368-371 and 111). -/
def truthyId (st : Station) : Option String :=
  match orFalsy st.id st.stationId with
  | some s => if s = "" then none else some s
  | none => none

/-- The metric key strings iterated by `_METRICS` / `_DAILY_METRICS`. -/
inductive MetricKey
  | generation
  | consumption
  | grid
  | purchase
  | charge
  | discharge
deriving DecidableEq

/-- The JSON field name of a metric key. -/
def keyName : MetricKey → String
  | .generation => "generationValue"
  | .consumption => "consumptionValue"
  | .grid => "gridValue"
  | .purchase => "purchaseValue"
  | .charge => "chargeValue"
  | .discharge => "dischargeValue"

/-- Python `item.get(key)` on a monthly record. -/
def MonthItem.get (i : MonthItem) : MetricKey → Option Val
  | .generation => i.generationValue
  | .consumption => i.consumptionValue
  | .grid => i.gridValue
  | .purchase => i.purchaseValue
  | .charge => i.chargeValue
  | .discharge => i.dischargeValue

/-- Python `data.get(key)` on a daily record. -/
def DayItem.get (i : DayItem) : MetricKey → Option Val
  | .generation => i.generationValue
  | .consumption => i.consumptionValue
  | .grid => i.gridValue
  | .purchase => i.purchaseValue
  | .charge => i.chargeValue
  | .discharge => i.dischargeValue

/-- Source `_METRICS` (lines 348-355): display name and key, in order. -/
def METRICS : List (String × MetricKey) :=
  [("Solar Generation", .generation),
   ("Monthly Consumption", .consumption),
   ("Monthly Grid Export", .grid),
   ("Monthly Grid Import", .purchase),
   ("Monthly Battery Charge", .charge),
   ("Monthly Battery Discharge", .discharge)]

/-- Source `_DAILY_METRICS` (lines 357-364). -/
def DAILY_METRICS : List (String × MetricKey) :=
  [("Solar Generation", .generation),
   ("Daily Consumption", .consumption),
   ("Daily Grid Export", .grid),
   ("Daily Grid Import", .purchase),
   ("Daily Battery Charge", .charge),
   ("Daily Battery Discharge", .discharge)]

/-- Python `strftime("%b")` month abbreviation. -/
def monthAbbrev : Nat → String
  | 1 => "Jan" | 2 => "Feb" | 3 => "Mar" | 4 => "Apr"
  | 5 => "May" | 6 => "Jun" | 7 => "Jul" | 8 => "Aug"
  | 9 => "Sep" | 10 => "Oct" | 11 => "Nov" | 12 => "Dec"
  | _ => ""

/-- Stable insertion of `x` after every element strictly below it
(models the stability of Python's `sorted`). -/
def insertByLt (lt : MonthItem → MonthItem → Bool) (x : MonthItem) :
    List MonthItem → List MonthItem
  | [] => [x]
  | y :: ys => if lt y x then y :: insertByLt lt x ys else x :: y :: ys

/-- Python `sorted(history, key=lambda x: (x["year"], x["month"]))`: a stable sort
on the lexicographic (year, month) order. -/
def sortHistory (history : List MonthItem) : List MonthItem :=
  history.foldr
    (insertByLt (fun a b =>
      a.year < b.year || (a.year == b.year && a.month < b.month)))
    []

/-- Source `{(i["year"], i["month"]): i for i in history}.get((y, m))`: a Python
dict comprehension keeps the LAST record for a duplicated key. -/
def historyIndexGet (history : List MonthItem) (y m : Nat) : Option MonthItem :=
  history.reverse.find? (fun i => i.year == y && i.month == m)

/-- The monthly raw sensor built at lines 394-406 for a history record whose
`generationValue` is `g`. -/
def monthlyRawEntity (sid : String) (item : MonthItem) (g : Val) : Entity :=
  { name := "Deye " ++ sid ++ " " ++ monthAbbrev item.month ++ " " ++ natStr item.year,
    uid := String.mk (monthlyRawUid sid.data item.year item.month),
    value := g,
    unit := some "kWh" }

/-- Lines 384-406: one sensor per sorted history record with a present
`generationValue`; absent-metric months are skipped. -/
def buildMonthlyRaw (sid : String) (history : List MonthItem) : List Entity :=
  (sortHistory history).filterMap
    (fun item => item.generationValue.map (monthlyRawEntity sid item))

/-- Lines 408-455: per metric, a current-month sensor then a last-month
sensor, each only when the metric is present in the indexed record. -/
def buildMonthlyMetrics (now : NowCtx) (sid : String) (history : List MonthItem) :
    List Entity :=
  METRICS.foldl
    (fun acc p =>
      let cur :=
        match (historyIndexGet history now.thisYear now.thisMonth).bind
            (fun i => i.get p.2) with
        | some v =>
          [{ name := p.1 ++ " " ++ sid,
             uid := sid ++ "_" ++ keyName p.2 ++ "_current_month",
             value := v, unit := some "kWh" }]
        | none => []
      let prev :=
        match (historyIndexGet history now.prevYear now.prevMonth).bind
            (fun i => i.get p.2) with
        | some v =>
          [{ name := p.1 ++ " (Tháng trước) " ++ sid,
             uid := sid ++ "_" ++ keyName p.2 ++ "_last_month",
             value := v, unit := some "kWh" }]
        | none => []
      acc ++ cur ++ prev)
    []

/-- The daily-history loop (lines 457-468, and identically 275-284): for each
date in the trailing window, fetch that single day; a raising fetch aborts,
a nonempty response stores ONLY its first record under the date, an empty
response stores nothing for that date. -/
def dailyLoop (f : String → Except String (List DayItem)) :
    List (String × DayItem) → List String → Except String (List (String × DayItem))
  | acc, [] => Except.ok acc
  | acc, date :: rest =>
    match f date with
    | Except.error e => Except.error e
    | Except.ok [] => dailyLoop f acc rest
    | Except.ok (d :: _) => dailyLoop f (acc ++ [(date, d)]) rest

/-- The daily-history loop entry point: empty accumulator. -/
def buildDailyHistoryE (f : String → Except String (List DayItem))
    (dates : List String) : Except String (List (String × DayItem)) :=
  dailyLoop f [] dates

/-- Source `relative_days.get(date, date.replace('-', '_'))` (lines 471-477); the
three window dates are pairwise distinct in any real cycle. -/
def relativeDay (now : NowCtx) (date : String) : String :=
  if date = now.today then "_today"
  else if date = now.yesterday then "_yesterday"
  else if date = now.dayBeforeYesterday then "_day_before_yesterday"
  else String.mk (date.data.map (fun c => if c = '-' then '_' else c))

/-- Lines 476-496: per stored date, per daily metric with a present value,
one sensor named and keyed by the relative-day label. -/
def buildDailyEntities (now : NowCtx) (sid : String)
    (daily : List (String × DayItem)) : List Entity :=
  daily.foldl
    (fun acc p =>
      let rd := relativeDay now p.1
      acc ++ DAILY_METRICS.filterMap
        (fun q => (p.2.get q.2).map
          (fun v =>
            { name := q.1 ++ " " ++ rd ++ " " ++ sid,
              uid := sid ++ "_" ++ keyName q.2 ++ rd,
              value := v, unit := some "kWh" })))
    []

/-- Source `process_station` (lines 367-498): skip an id-less station; fetch monthly
history (raising on failure), build monthly sensors, fetch the trailing daily
window (raising on failure), build daily sensors. A raise anywhere discards
everything already built for this station. -/
def processStation (net : Net) (now : NowCtx) (st : Station) :
    Except String (List Entity) :=
  match truthyId st with
  | none => Except.ok []
  | some sid =>
    match historyCall (net.historyResp sid) with
    | Except.error e => Except.error e
    | Except.ok history =>
      match buildDailyHistoryE (fun date => dailyHistoryCall (net.dailyResp sid date))
          [now.dayBeforeYesterday, now.yesterday, now.today] with
      | Except.error e => Except.error e
      | Except.ok daily =>
        Except.ok (buildMonthlyRaw sid history
          ++ buildMonthlyMetrics now sid history
          ++ buildDailyEntities now sid daily)

/-- Lines 502-506: walk the gathered per-station outcomes in order; an
`Exception` entry is logged and contributes nothing, an entity list is
appended (`entities.extend(result)`). -/
def collectOk : List (Except String (List Entity)) → List Entity
  | [] => []
  | Except.ok es :: t => es ++ collectOk t
  | Except.error _ :: t => collectOk t

/-- Source `_async_get_device_list` (lines 107-128): collect the truthy station ids;
an empty id list short-circuits to `[]` without any request. -/
def getDeviceList (net : Net) (stations : List Station) : Except String (List String) :=
  let ids := stations.filterMap truthyId
  if ids = [] then Except.ok []
  else deviceListCall (net.deviceListResp ids)

/-- Lines 512-537: one sensor per telemetry item of each device that carries a
serial number. -/
def deviceEntities (ddl : List DeviceData) : List Entity :=
  ddl.foldl
    (fun acc dd =>
      match dd.deviceSn with
      | none => acc
      | some sn =>
        acc ++ dd.dataList.map
          (fun d =>
            { name := d.key ++ " " ++ sn,
              uid := "device_" ++ sn ++ "_" ++ d.key,
              value := d.value, unit := some d.unit }))
    []

/-- Lines 508-511: device list over all of the cycle's stations, then, only
when nonempty, one status fetch capped at the first 10 serials. -/
def deviceStage (net : Net) (stations : List Station) : Except String (List Entity) :=
  match getDeviceList net stations with
  | Except.error e => Except.error e
  | Except.ok sns =>
    if sns = [] then Except.ok []
    else
      match deviceStatusCall (net.deviceStatusResp (sns.take 10)) with
      | Except.error e => Except.error e
      | Except.ok ddl => Except.ok (deviceEntities ddl)

/-- What one `async_setup_entry` run reports to the host. -/
inductive Outcome
  | raised (e : String)
  | completed (added : Option (List Entity))
deriving DecidableEq

/-- Source `async_setup_entry` (lines 329-552): token, then station list; an empty
station list returns `True` early WITHOUT adding entities
(`completed none`); otherwise the stations are processed concurrently with
`asyncio.gather(..., return_exceptions=True)`, the per-station outcomes are
folded by `collectOk`, device entities are appended, and the entities are
added (`completed (some ...)`). Any uncaught exception is logged and
re-raised (`raised`). -/
def setupCycle (net : Net) (now : NowCtx) : Outcome :=
  match getToken net.tokenResp with
  | Except.error e => Outcome.raised e
  | Except.ok _tok =>
    match stationListCall net.stationsResp with
    | Except.error e => Outcome.raised e
    | Except.ok stations =>
      if stations = [] then Outcome.completed none
      else
        let results := stations.map (processStation net now)
        match deviceStage net stations with
        | Except.error e => Outcome.raised e
        | Except.ok devEs => Outcome.completed (some (collectOk results ++ devEs))

/-! ## Concrete fixtures used to exercise the model -/

/-- A calendar context: cycle run on 2024-03-15. -/
def sampleNow : NowCtx :=
  { thisYear := 2024, thisMonth := 3, prevYear := 2024, prevMonth := 2,
    today := "2024-03-15", yesterday := "2024-03-14",
    dayBeforeYesterday := "2024-03-13" }

/-- A benign envelope. -/
def okEnv (a : α) : ApiEnvelope α := { success := true, msg := "", payload := a }

/-- February 2024 monthly record with only the generation metric present. -/
def sampleItemB : MonthItem :=
  { year := 2024, month := 2, generationValue := some 7,
    consumptionValue := none, gridValue := none, purchaseValue := none,
    chargeValue := none, dischargeValue := none }

/-- Stations used by the fixtures. -/
def stA : Station := { id := some "A", stationId := none }

/-- Second fixture station. -/
def stB : Station := { id := some "B", stationId := none }

/-- Third fixture station. -/
def stC : Station := { id := some "C", stationId := none }

/-- The single device entity produced by the device-stage fixtures. -/
def sampleDevEntity : Entity :=
  { name := "Pac SN1", uid := "device_SN1_Pac", value := 123, unit := some "W" }

/-- A cycle with two stations: station A's history fetch fails, station B's
succeeds; the daily fetches return no data; the device stage succeeds with
one inverter reporting one telemetry item. -/
def netTwoStations : Net :=
  { tokenResp := okEnv "tok",
    stationsResp := okEnv [stA, stB],
    historyResp := fun sid =>
      if sid = "A" then { success := false, msg := "hist down", payload := [] }
      else okEnv [sampleItemB],
    dailyResp := fun _ _ => okEnv [],
    deviceListResp := fun _ => okEnv [{ deviceSn := "SN1", deviceType := some "INVERTER" }],
    deviceStatusResp := fun _ =>
      okEnv [{ deviceSn := some "SN1", deviceType := some "INVERTER",
               deviceState := some "1", collectionTime := some "t",
               dataList := [{ key := "Pac", value := 123, unit := "W" }] }] }

/-- A cycle whose token response is a `success=false` body. -/
def netBadToken : Net :=
  { tokenResp := { success := false, msg := "bad token", payload := "" },
    stationsResp := okEnv [stA],
    historyResp := fun _ => okEnv [],
    dailyResp := fun _ _ => okEnv [],
    deviceListResp := fun _ => okEnv [],
    deviceStatusResp := fun _ => okEnv [] }

/-- A cycle whose station listing returns an empty list. -/
def netEmptyStations : Net :=
  { tokenResp := okEnv "tok",
    stationsResp := okEnv [],
    historyResp := fun _ => okEnv [],
    dailyResp := fun _ _ => okEnv [],
    deviceListResp := fun _ => okEnv [],
    deviceStatusResp := fun _ => okEnv [] }

/-- A cycle where station C's monthly history succeeds (one record, so the
monthly sensors are built) but its first daily fetch then fails. -/
def netC5 : Net :=
  { tokenResp := okEnv "tok",
    stationsResp := okEnv [stC],
    historyResp := fun _ => okEnv [sampleItemB],
    dailyResp := fun _ _ => { success := false, msg := "daily down", payload := [] },
    deviceListResp := fun _ => okEnv [],
    deviceStatusResp := fun _ => okEnv [] }

/-! ## Helper lemmas -/

theorem dropWhile_as_drop (p : Char → Bool) (l : List Char) :
    l.drop (l.takeWhile p).length = l.dropWhile p := by
  induction l with
  | nil => rfl
  | cons c t ih =>
    by_cases h : p c <;> simp [List.takeWhile, List.dropWhile, h, ih]

theorem lookupAttr_mem (d : List (String × String)) (k v : String)
    (hmem : ∃ p ∈ d, p.1 = k) :
    lookupAttr (d.map (fun p => if p.1 = k then (p.1, v) else p)) k = some v := by
  induction d with
  | nil => simp at hmem
  | cons q t ih =>
    by_cases hq : q.1 = k
    · simp [lookupAttr, List.find?, hq]
    · have : ∃ p ∈ t, p.1 = k := by
        rcases hmem with ⟨p, hp, hpk⟩
        rcases List.mem_cons.mp hp with hp | hp
        · exact absurd (hp ▸ hpk) hq
        · exact ⟨p, hp, hpk⟩
      have ht := ih this
      simpa [lookupAttr, List.find?, hq] using ht

theorem lookupAttr_append (d : List (String × String)) (k v : String)
    (hnone : ∀ p ∈ d, p.1 ≠ k) :
    lookupAttr (d ++ [(k, v)]) k = some v := by
  induction d with
  | nil => simp [lookupAttr, List.find?]
  | cons q t ih =>
    have hq : q.1 ≠ k := hnone q (List.mem_cons_self q t)
    have ht := ih (fun p hp => hnone p (List.mem_cons_of_mem q hp))
    simpa [lookupAttr, List.find?, hq] using ht

theorem lookupAttr_dictInsert (d : List (String × String)) (k v : String) :
    lookupAttr (dictInsert d k v) k = some v := by
  by_cases hc : (d.map Prod.fst).contains k = true
  · have hmem : ∃ p ∈ d, p.1 = k := by
      have := List.elem_iff.mp hc
      rcases List.mem_map.mp this with ⟨p, hp, hpk⟩
      exact ⟨p, hp, hpk⟩
    unfold dictInsert
    rw [if_pos hc]
    exact lookupAttr_mem d k v hmem
  · have hnone : ∀ p ∈ d, p.1 ≠ k := by
      intro p hp hpk
      exact hc (List.elem_iff.mpr (List.mem_map.mpr ⟨p, hp, hpk⟩))
    unfold dictInsert
    rw [if_neg hc]
    exact lookupAttr_append d k v hnone

theorem collectOk_append (l₁ l₂ : List (Except String (List Entity))) :
    collectOk (l₁ ++ l₂) = collectOk l₁ ++ collectOk l₂ := by
  induction l₁ with
  | nil => simp [collectOk]
  | cons r t ih =>
    cases r with
    | ok es => simp [collectOk, ih]
    | error e => simp [collectOk, ih]

theorem mem_collectOk (results : List (Except String (List Entity)))
    (es : List Entity) : Except.ok es ∈ results →
    ∀ e ∈ es, e ∈ collectOk results := by
  induction results with
  | nil => intro h; simp at h
  | cons r t ih =>
    intro h e he
    rcases List.mem_cons.mp h with h1 | h2
    · subst h1
      exact List.mem_append_left _ he
    · cases r with
      | ok es2 => exact List.mem_append_right _ (ih h2 e he)
      | error e2 => exact ih h2 e he

theorem dailyLoop_ok (g : String → List DayItem) (dates : List String) :
    ∀ acc, dailyLoop (fun d => Except.ok (g d)) acc dates
      = Except.ok (acc ++ dates.filterMap (fun d => (g d).head?.map (fun r => (d, r)))) := by
  induction dates with
  | nil => intro acc; simp [dailyLoop]
  | cons d ds ih =>
    intro acc
    cases hg : g d with
    | nil => simp [dailyLoop, hg, ih]
    | cons r rest => simp [dailyLoop, hg, ih, List.append_assoc]

/-! ## Claim theorems -/

/-- C1 counterexample: a sensor holding the last good value `5` whose update
fetch raises has its native value set to `None` by the `except` branch of
`_BasicSensor.async_update` — the value is NOT retained and DOES become
null. -/
theorem deye_C1_cex :
    (updateOnError { value := some 5, attrs := [] } "boom").value = none
      ∧ (updateOnError { value := some 5, attrs := [] } "boom").value ≠ some 5 := by
  constructor
  · rfl
  · decide

/-- C1 (amended): when the fetch performed by a sensor's update raises, the
entity's native value is set to `None` (not retained), and the extra
attribute `last_update_error` records the error string. -/
theorem deye_C1_amended (s : SensorState) (err : String) :
    (updateOnError s err).value = none
      ∧ lookupAttr (updateOnError s err).attrs "last_update_error" = some err := by
  exact ⟨rfl, lookupAttr_dictInsert s.attrs "last_update_error" err⟩

/-- C3 counterexample: the station-listing call on a `success=false` body
returns `Except.ok []` — the (possibly empty) `stationList` — instead of
raising a typed error. -/
theorem deye_C3_cex :
    stationListCall { success := false, msg := "boom", payload := [] }
      = Except.ok [] := rfl

/-- C3 (amended): the monthly-history, daily-history, device-listing,
device-status and token calls each raise a typed error carrying the
provider's `msg` on a `success=false` body even under HTTP 200, but the
station-listing call never inspects the success flag and returns the
`stationList` payload unconditionally. -/
theorem deye_C3_amended :
    (∀ r : ApiEnvelope (List MonthItem), r.success = false →
        historyCall r = Except.error ("History request failed: " ++ r.msg))
  ∧ (∀ r : ApiEnvelope (List DayItem), r.success = false →
        dailyHistoryCall r = Except.error ("Daily history request failed: " ++ r.msg))
  ∧ (∀ r : ApiEnvelope (List DeviceListItem), r.success = false →
        deviceListCall r = Except.error ("Device list request failed: " ++ r.msg))
  ∧ (∀ r : ApiEnvelope (List DeviceData), r.success = false →
        deviceStatusCall r = Except.error ("Device status request failed: " ++ r.msg))
  ∧ (∀ r : ApiEnvelope String, r.success = false →
        getToken r = Except.error ("Token request failed: " ++ r.msg))
  ∧ (∀ r : ApiEnvelope (List Station), stationListCall r = Except.ok r.payload) := by
  refine ⟨?_, ?_, ?_, ?_, ?_, ?_⟩ <;> intro r
  · intro h; simp [historyCall, h]
  · intro h; simp [dailyHistoryCall, h]
  · intro h; simp [deviceListCall, h]
  · intro h; simp [deviceStatusCall, h]
  · intro h; simp [getToken, h]
  · rfl

/-- C3 witness: the amended behavior at concrete `success=false` bodies. -/
theorem deye_C3_witness :
    historyCall { success := false, msg := "m1", payload := [] }
        = Except.error ("History request failed: " ++ "m1")
  ∧ dailyHistoryCall { success := false, msg := "m2", payload := [] }
        = Except.error ("Daily history request failed: " ++ "m2")
  ∧ deviceListCall { success := false, msg := "m3", payload := [] }
        = Except.error ("Device list request failed: " ++ "m3")
  ∧ deviceStatusCall { success := false, msg := "m4", payload := [] }
        = Except.error ("Device status request failed: " ++ "m4")
  ∧ getToken { success := false, msg := "m5", payload := "" }
        = Except.error ("Token request failed: " ++ "m5") :=
  ⟨deye_C3_amended.1 { success := false, msg := "m1", payload := [] } rfl,
   deye_C3_amended.2.1 { success := false, msg := "m2", payload := [] } rfl,
   deye_C3_amended.2.2.1 { success := false, msg := "m3", payload := [] } rfl,
   deye_C3_amended.2.2.2.1 { success := false, msg := "m4", payload := [] } rfl,
   deye_C3_amended.2.2.2.2.1 { success := false, msg := "m5", payload := "" } rfl⟩

/-- C6 counterexample: a token acquired at minute 0 is still used by an
update call at minute 31 — beyond any fixed 30-minute lease — and the fresh
token the endpoint would mint is never requested: there is no validity
lease at all, only a `None`/empty check. -/
theorem deye_C6_cex :
    (runUpdates none [{ time := 0, fresh := "A" }, { time := 31, fresh := "B" }]).1
        = ["A", "A"]
      ∧ 31 - 0 > 30 ∧ "A" ≠ "B" := by
  refine ⟨rfl, by decide, by decide⟩

/-- C6 (amended): the token is acquired lazily on the first update call that
has no cached token and is then cached and reused for every subsequent call
of the entity indefinitely, regardless of elapsed time; it is never
refreshed while a non-empty token is cached. -/
theorem deye_C6_amended (t : String) (ht : t ≠ "") (c : UpdateCall)
    (hc : c.fresh ≠ "") (cs : List UpdateCall) :
    runUpdates (some t) cs = (List.replicate cs.length t, some t)
      ∧ runUpdates none (c :: cs)
        = (c.fresh :: List.replicate cs.length c.fresh, some c.fresh) := by
  have main : ∀ (u : String), u ≠ "" → ∀ (l : List UpdateCall),
      runUpdates (some u) l = (List.replicate l.length u, some u) := by
    intro u hu l
    induction l with
    | nil => rfl
    | cons c' cs' ih =>
      simp [runUpdates, ensureToken, hu, ih, List.replicate_succ]
  refine ⟨main t ht cs, ?_⟩
  simp [runUpdates, ensureToken, main c.fresh hc cs]

/-- C6 witness: with token "A" acquired lazily at minute 0, the call at
minute 31 reuses "A" and the final cached token is still "A". -/
theorem deye_C6_witness :
    runUpdates (some "A") [{ time := 31, fresh := "B" }]
        = (List.replicate 1 "A", some "A")
      ∧ runUpdates none
            (({ time := 0, fresh := "A" } : UpdateCall) :: [{ time := 31, fresh := "B" }])
        = ("A" :: List.replicate 1 "A", some "A") :=
  deye_C6_amended "A" (by decide) { time := 0, fresh := "A" } (by decide)
    [{ time := 31, fresh := "B" }]

/-- C7: a `success=false` token-endpoint body makes `get_token` raise an
error whose message contains the provider's `msg`; the whole cycle is
reported as raised/failed, and the station listing is never consulted
(its response cannot influence the outcome). -/
theorem deye_C7 (net : Net) (now : NowCtx) (h : net.tokenResp.success = false) :
    setupCycle net now = Outcome.raised ("Token request failed: " ++ net.tokenResp.msg)
  ∧ (∃ p q, "Token request failed: " ++ net.tokenResp.msg
        = p ++ net.tokenResp.msg ++ q)
  ∧ (∀ r, setupCycle { net with stationsResp := r } now = setupCycle net now) := by
  refine ⟨?_, ⟨"Token request failed: ", "", by simp⟩, ?_⟩
  · simp [setupCycle, getToken, h]
  · intro r; simp [setupCycle, getToken, h]

/-- C7 witness: the provider body `{success: false, msg: "bad token"}`. -/
theorem deye_C7_witness :
    setupCycle netBadToken sampleNow
        = Outcome.raised ("Token request failed: " ++ netBadToken.tokenResp.msg)
  ∧ (∃ p q, "Token request failed: " ++ netBadToken.tokenResp.msg
        = p ++ netBadToken.tokenResp.msg ++ q)
  ∧ (∀ r, setupCycle { netBadToken with stationsResp := r } sampleNow
        = setupCycle netBadToken sampleNow) :=
  deye_C7 netBadToken sampleNow rfl

/-- C8 counterexample: a cycle whose station listing returns the empty list
completes successfully with no entities added (`completed none` — the early
`return True` at line 337): it is a quiet success, not a reported failure. -/
theorem deye_C8_cex :
    setupCycle netEmptyStations sampleNow = Outcome.completed none
      ∧ ∀ e, setupCycle netEmptyStations sampleNow ≠ Outcome.raised e := by
  have h : setupCycle netEmptyStations sampleNow = Outcome.completed none := rfl
  exact ⟨h, fun e hh => Outcome.noConfusion (h ▸ hh)⟩

/-- C8 (amended): whenever the token call succeeds and the station listing
returns an empty list, the cycle returns successfully without adding any
entities — a quiet success, neither a failure report nor a crash. -/
theorem deye_C8_amended (net : Net) (now : NowCtx)
    (htok : net.tokenResp.success = true)
    (hempty : net.stationsResp.payload = []) :
    setupCycle net now = Outcome.completed none := by
  simp [setupCycle, getToken, stationListCall, htok, hempty]

/-- C8 witness: the empty-station-list fixture. -/
theorem deye_C8_witness :
    setupCycle netEmptyStations sampleNow = Outcome.completed none :=
  deye_C8_amended netEmptyStations sampleNow rfl rfl

/-- C10: a trailing-window date's `DailyRecord` is exactly the FIRST record
of that day's response — additional records are ignored (only `head?`
matters) — and a date whose response is empty is omitted from the daily
mapping entirely rather than stored as an empty record. -/
theorem deye_C10 (g : String → List DayItem) (dates : List String) :
    buildDailyHistoryE (fun d => Except.ok (g d)) dates
      = Except.ok (dates.filterMap (fun d => (g d).head?.map (fun r => (d, r)))) := by
  simpa [buildDailyHistoryE] using dailyLoop_ok g dates []

/-- C5 counterexample: station C's monthly history succeeded — the monthly
sensors it would contribute are nonempty — but its daily fetch then raised,
so `process_station` returns only the exception and the result loop
contributes NOTHING for it: the partial data is discarded, not carried. -/
theorem deye_C5_cex :
    processStation netC5 sampleNow stC
        = Except.error "Daily history request failed: daily down"
      ∧ buildMonthlyRaw "C" [sampleItemB] ≠ []
      ∧ collectOk [processStation netC5 sampleNow stC] = [] := by
  refine ⟨rfl, ?_, rfl⟩
  decide

/-- C5 (amended): a station whose fetch sequence raises partway through a
cycle contributes NO entities to the cycle's output — whatever partial data
it gathered before the failure is discarded (only the error is logged) —
while the sibling stations' results are unaffected. -/
theorem deye_C5_amended (net : Net) (now : NowCtx) (st : Station) (err : String)
    (rs₁ rs₂ : List (Except String (List Entity)))
    (h : processStation net now st = Except.error err) :
    collectOk (rs₁ ++ processStation net now st :: rs₂)
      = collectOk rs₁ ++ collectOk rs₂ := by
  rw [collectOk_append, h]
  rfl

/-- C5 witness: a sibling's single entity survives; the failing station C
adds nothing. -/
theorem deye_C5_witness :
    collectOk ([Except.ok [sampleDevEntity]]
        ++ processStation netC5 sampleNow stC :: [])
      = collectOk [Except.ok [sampleDevEntity]] ++ collectOk [] :=
  deye_C5_amended netC5 sampleNow stC "Daily history request failed: daily down"
    [Except.ok [sampleDevEntity]] [] rfl

/-- C4: with a valid token, a nonempty station list and a successful device
stage, the cycle completes with the all-complete join of every station's
outcome: the outcome list has exactly one entry per station (no
first-failure abort), every successfully processed station's entities
appear in the added output even when sibling stations raised, and the
device entities — covering devices of a station whose history fetch threw —
appear in the output as well. -/
theorem deye_C4 (net : Net) (now : NowCtx)
    (htok : net.tokenResp.success = true)
    (hne : net.stationsResp.payload ≠ [])
    (devEs : List Entity)
    (hdev : deviceStage net net.stationsResp.payload = Except.ok devEs) :
    setupCycle net now
        = Outcome.completed (some (collectOk
            (net.stationsResp.payload.map (processStation net now)) ++ devEs))
      ∧ (net.stationsResp.payload.map (processStation net now)).length
          = net.stationsResp.payload.length
      ∧ (∀ st ∈ net.stationsResp.payload, ∀ es, processStation net now st = Except.ok es →
          ∀ e ∈ es, e ∈ collectOk
              (net.stationsResp.payload.map (processStation net now)) ++ devEs)
      ∧ (∀ e ∈ devEs, e ∈ collectOk
              (net.stationsResp.payload.map (processStation net now)) ++ devEs) := by
  refine ⟨?_, List.length_map _ _, ?_, ?_⟩
  · simp [setupCycle, getToken, stationListCall, htok, hne, hdev]
  · intro st hst es hes e he
    have hmem : Except.ok es ∈ net.stationsResp.payload.map (processStation net now) := by
      rw [← hes]
      exact List.mem_map_of_mem _ hst
    exact List.mem_append_left _ (mem_collectOk _ es hmem e he)
  · intro e he
    exact List.mem_append_right _ he

/-- C4 witness: the two-station fixture — station A's history fetch raises,
station B succeeds — still completes with B's entities and the device
entities (including those of station A's inverter) in the output. -/
theorem deye_C4_witness :
    setupCycle netTwoStations sampleNow
        = Outcome.completed (some (collectOk
            (netTwoStations.stationsResp.payload.map (processStation netTwoStations sampleNow))
          ++ [sampleDevEntity]))
      ∧ (∀ e ∈ [sampleDevEntity], e ∈ collectOk
            (netTwoStations.stationsResp.payload.map (processStation netTwoStations sampleNow))
          ++ [sampleDevEntity]) :=
  ⟨(deye_C4 netTwoStations sampleNow rfl (by decide) [sampleDevEntity] rfl).1,
   (deye_C4 netTwoStations sampleNow rfl (by decide) [sampleDevEntity] rfl).2.2.2⟩

theorem chunksAux_bounds : ∀ (fuel s e : Nat), ∀ c ∈ chunksAux fuel s e,
    s ≤ c.1 ∧ c.1 ≤ c.2 ∧ c.2 ≤ e ∧ c.2 ≤ c.1 + 11 := by
  intro fuel
  induction fuel with
  | zero => intro s e c hc; simp [chunksAux] at hc
  | succ n ih =>
    intro s e c hc
    by_cases hse : s ≤ e
    · rw [chunksAux, if_pos hse] at hc
      have hm1 : s ≤ min (s + 11) e := le_min (by omega) hse
      have hm2 : min (s + 11) e ≤ e := min_le_right _ _
      have hm3 : min (s + 11) e ≤ s + 11 := min_le_left _ _
      rcases List.mem_cons.mp hc with h | h
      · subst h
        refine ⟨le_refl s, hm1, hm2, hm3⟩
      · have := ih (min (s + 11) e + 1) e c h
        omega
    · rw [chunksAux, if_neg hse] at hc
      simp at hc

theorem chunksAux_cover : ∀ (fuel s e : Nat), e + 1 - s ≤ fuel → ∀ k,
    (s ≤ k ∧ k ≤ e) ↔ ∃ c ∈ chunksAux fuel s e, c.1 ≤ k ∧ k ≤ c.2 := by
  intro fuel
  induction fuel with
  | zero =>
    intro s e hf k
    simp only [chunksAux]
    constructor
    · intro hk; omega
    · intro hc; simp at hc
  | succ n ih =>
    intro s e hf k
    by_cases hse : s ≤ e
    · rw [chunksAux, if_pos hse]
      have hm1 : s ≤ min (s + 11) e := le_min (by omega) hse
      have hm2 : min (s + 11) e ≤ e := min_le_right _ _
      have ihs := ih (min (s + 11) e + 1) e (by omega) k
      constructor
      · rintro ⟨hk1, hk2⟩
        by_cases hkm : k ≤ min (s + 11) e
        · exact ⟨(s, min (s + 11) e), List.mem_cons_self _ _, hk1, hkm⟩
        · rcases ihs.mp ⟨by omega, hk2⟩ with ⟨c, hc, hck⟩
          exact ⟨c, List.mem_cons_of_mem _ hc, hck⟩
      · rintro ⟨c, hc, hck1, hck2⟩
        rcases List.mem_cons.mp hc with h | h
        · subst h; omega
        · have := ihs.mpr ⟨c, h, hck1, hck2⟩
          omega
    · rw [chunksAux, if_neg hse]
      constructor
      · intro hk; omega
      · intro hc; simp at hc

theorem chunksAux_disjoint : ∀ (fuel s e : Nat),
    List.Pairwise (fun c d : Nat × Nat => c.2 < d.1) (chunksAux fuel s e) := by
  intro fuel
  induction fuel with
  | zero => intro s e; simp [chunksAux]
  | succ n ih =>
    intro s e
    by_cases hse : s ≤ e
    · rw [chunksAux, if_pos hse]
      refine List.Pairwise.cons ?_ (ih _ _)
      intro d hd
      have := chunksAux_bounds n (min (s + 11) e + 1) e d hd
      omega
    · rw [chunksAux, if_neg hse]
      exact List.Pairwise.nil

theorem chunksAux_head : ∀ (fuel s e : Nat) (c : Nat × Nat) (t : List (Nat × Nat)),
    chunksAux fuel s e = c :: t → c.1 = s := by
  intro fuel s e c t h
  cases fuel with
  | zero => simp [chunksAux] at h
  | succ n =>
    by_cases hse : s ≤ e
    · rw [chunksAux, if_pos hse] at h
      have := (List.cons.injEq _ _ _ _).mp h
      rw [← this.1]
    · rw [chunksAux, if_neg hse] at h
      simp at h

theorem chunksAux_adjacent : ∀ (fuel s e : Nat),
    List.Chain' (fun c d : Nat × Nat => d.1 = c.2 + 1) (chunksAux fuel s e) := by
  intro fuel
  induction fuel with
  | zero => intro s e; simp [chunksAux]
  | succ n ih =>
    intro s e
    by_cases hse : s ≤ e
    · rw [chunksAux, if_pos hse]
      refine List.chain'_cons'.mpr ⟨?_, ih _ _⟩
      intro d hd
      cases ht : chunksAux n (min (s + 11) e + 1) e with
      | nil => rw [ht] at hd; simp at hd
      | cons c' t' =>
        rw [ht] at hd
        simp at hd
        rw [← hd]
        exact chunksAux_head n _ e c' t' ht
    · rw [chunksAux, if_neg hse]
      exact List.chain'_nil

/-- C2: for any month range `start ≤ now` the monthly History Reconciler's
chunk windows cover every month of `[start, now]` exactly once (no gap, no
duplicate key), are pairwise disjoint and adjacent
(`next_start = chunk_end + 1 month`), each spans at most 12 months
inclusive, and for `start_month = "2024-01"` with current date 2024-03-15 a
single chunk `2024-01 .. 2024-03` is issued. -/
theorem deye_C2 (s e : Nat) (h : s ≤ e) :
    (∀ k, (s ≤ k ∧ k ≤ e) ↔ ∃ c ∈ historyChunks s e, c.1 ≤ k ∧ k ≤ c.2)
  ∧ List.Pairwise (fun c d : Nat × Nat => c.2 < d.1) (historyChunks s e)
  ∧ (∀ c ∈ historyChunks s e, s ≤ c.1 ∧ c.1 ≤ c.2 ∧ c.2 ≤ e ∧ c.2 ≤ c.1 + 11)
  ∧ List.Chain' (fun c d : Nat × Nat => d.1 = c.2 + 1) (historyChunks s e)
  ∧ historyChunks (monthIndex 2024 1) (monthIndex 2024 3)
      = [(monthIndex 2024 1, monthIndex 2024 3)] := by
  refine ⟨fun k => chunksAux_cover (e + 1 - s) s e (le_refl _) k,
    chunksAux_disjoint _ s e, fun c hc => chunksAux_bounds _ s e c hc,
    chunksAux_adjacent _ s e, by decide⟩

/-- C2 witness: the spec's example instance — one chunk, 2024-01 through
2024-03. -/
theorem deye_C2_witness :
    historyChunks (monthIndex 2024 1) (monthIndex 2024 3)
      = [(monthIndex 2024 1, monthIndex 2024 3)] :=
  (deye_C2 (monthIndex 2024 1) (monthIndex 2024 3) (by decide)).2.2.2.2

theorem parseLE_digitsLEAux : ∀ (fuel n : Nat), n ≤ fuel →
    parseLE (digitsLEAux fuel n) = n := by
  intro fuel
  induction fuel with
  | zero =>
    intro n hn
    interval_cases n
    rfl
  | succ f ih =>
    intro n hn
    cases n with
    | zero => rfl
    | succ k =>
      have hdiv : (k + 1) / 10 ≤ f := by
        have := Nat.div_lt_self (Nat.succ_pos k) (by omega : 1 < 10)
        omega
      simp only [digitsLEAux, parseLE, ih _ hdiv]
      omega

theorem digitsLEAux_lt10 : ∀ (fuel n : Nat), ∀ d ∈ digitsLEAux fuel n, d < 10 := by
  intro fuel
  induction fuel with
  | zero => intro n d hd; simp [digitsLEAux] at hd
  | succ f ih =>
    intro n d hd
    cases n with
    | zero => simp [digitsLEAux] at hd
    | succ k =>
      rcases List.mem_cons.mp hd with h | h
      · subst h; exact Nat.mod_lt _ (by omega)
      · exact ih _ d h

theorem digitsLEAux_ne_nil (fuel n : Nat) (hn : 0 < n) (hf : n ≤ fuel) :
    digitsLEAux fuel n ≠ [] := by
  cases fuel with
  | zero => omega
  | succ f =>
    cases n with
    | zero => omega
    | succ k => simp [digitsLEAux]

theorem charDigit_digitChar (d : Nat) (hd : d < 10) : charDigit (digitChar d) = d := by
  interval_cases d <;> decide

theorem isDig_digitChar (d : Nat) (hd : d < 10) : isDig (digitChar d) = true := by
  interval_cases d <;> decide

theorem takeWhile_append_cons (p : Char → Bool) (l₁ : List Char) (c : Char)
    (t : List Char) (h₁ : ∀ x ∈ l₁, p x = true) (hc : p c = false) :
    (l₁ ++ c :: t).takeWhile p = l₁ ∧ (l₁ ++ c :: t).dropWhile p = c :: t := by
  induction l₁ with
  | nil => simp [List.takeWhile, List.dropWhile, hc]
  | cons x xs ih =>
    have hx : p x = true := h₁ x (List.mem_cons_self _ _)
    have := ih (fun z hz => h₁ z (List.mem_cons_of_mem _ hz))
    simp [List.takeWhile, List.dropWhile, hx, this]

theorem pad2Chars_eq (m : Nat) (hm1 : 1 ≤ m) (hm2 : m ≤ 12) :
    pad2Chars m = [digitChar (m / 10), digitChar (m % 10)] := by
  interval_cases m <;> decide

theorem map_charDigit_digitChar (l : List Nat) (h : ∀ d ∈ l, d < 10) :
    (l.map digitChar).map charDigit = l := by
  rw [List.map_map]
  have hcongr : ∀ d ∈ l, (charDigit ∘ digitChar) d = id d :=
    fun d hd => charDigit_digitChar d (h d hd)
  rw [List.map_congr_left hcongr, List.map_id]

theorem decodeRev_uid (sid : List Char) (y m : Nat) (hy : 0 < y)
    (hm1 : 1 ≤ m) (hm2 : m ≤ 12) :
    decodeRev (monthlyRawUid sid y m).reverse = some (m, y, sid.reverse) := by
  have hrepr : reprChars y = ((digitsLE y).map digitChar).reverse := by
    unfold reprChars
    rw [if_neg (by omega : ¬ y = 0)]
  have hrev : (monthlyRawUid sid y m).reverse
      = digitChar (m % 10) :: digitChar (m / 10) :: '_' ::
          ((digitsLE y).map digitChar ++
            ('_' :: 'w' :: 'a' :: 'r' :: '_' :: sid.reverse)) := by
    unfold monthlyRawUid
    rw [hrepr, pad2Chars_eq m hm1 hm2]
    simp [List.reverse_append, List.append_assoc]
  rw [hrev]
  have hall : ∀ x ∈ (digitsLE y).map digitChar, isDig x = true := by
    intro x hx
    rcases List.mem_map.mp hx with ⟨d, hd, hdx⟩
    rw [← hdx]
    exact isDig_digitChar d (digitsLEAux_lt10 y y d hd)
  have htd := takeWhile_append_cons isDig ((digitsLE y).map digitChar) '_'
    ('w' :: 'a' :: 'r' :: '_' :: sid.reverse) hall (by decide)
  cases hds : digitsLE y with
  | nil => exact absurd hds (digitsLEAux_ne_nil y y hy (le_refl y))
  | cons d0 ds =>
    rw [hds] at htd
    have hlt : ∀ d ∈ d0 :: ds, d < 10 := by
      intro d hd
      rw [← hds] at hd
      exact digitsLEAux_lt10 y y d hd
    have hmap : (((d0 :: ds).map digitChar).map charDigit) = d0 :: ds :=
      map_charDigit_digitChar (d0 :: ds) hlt
    have hparse : parseLE (d0 :: ds) = y := by
      rw [← hds]
      exact parseLE_digitsLEAux y y (le_refl y)
    have hm : 10 * charDigit (digitChar (m / 10)) + charDigit (digitChar (m % 10)) = m := by
      rw [charDigit_digitChar _ (by omega), charDigit_digitChar _ (Nat.mod_lt _ (by omega))]
      omega
    simp only [decodeRev, List.map_cons] at htd ⊢
    rw [htd.1, htd.2]
    simp only [List.map_cons] at hmap
    simp [hmap, hparse, hm]
    rw [← List.map_map]
    rw [hmap]
    exact hparse

/-- C9: the unique identifier of a monthly-raw entity is a function of
(station_id, year, month) only — the identifier equality holds exactly when
the triples are equal, so equal triples give the identical identifier across
refreshes and distinct triples can never collide — and the entity built by
the projector carries an identifier independent of the record's metric
values (hence also of the record's array position and of the other records
present). Years are positive and months lie in 1..12 as reported by the
provider. -/
theorem deye_C9 (sid₁ sid₂ : List Char) (y₁ y₂ m₁ m₂ : Nat)
    (hy₁ : 0 < y₁) (hy₂ : 0 < y₂)
    (hm₁l : 1 ≤ m₁) (hm₁u : m₁ ≤ 12) (hm₂l : 1 ≤ m₂) (hm₂u : m₂ ≤ 12) :
    (monthlyRawUid sid₁ y₁ m₁ = monthlyRawUid sid₂ y₂ m₂
        ↔ (sid₁ = sid₂ ∧ y₁ = y₂ ∧ m₁ = m₂))
  ∧ (∀ (s : String) (it₁ it₂ : MonthItem) (g₁ g₂ : Val),
        it₁.year = it₂.year → it₁.month = it₂.month →
        (monthlyRawEntity s it₁ g₁).uid = (monthlyRawEntity s it₂ g₂).uid) := by
  constructor
  · constructor
    · intro h
      have hdec : decodeRev (monthlyRawUid sid₁ y₁ m₁).reverse
          = decodeRev (monthlyRawUid sid₂ y₂ m₂).reverse := by rw [h]
      rw [decodeRev_uid sid₁ y₁ m₁ hy₁ hm₁l hm₁u,
          decodeRev_uid sid₂ y₂ m₂ hy₂ hm₂l hm₂u] at hdec
      have hcomp := Option.some.inj hdec
      have hm : m₁ = m₂ := (Prod.mk.injEq _ _ _ _).mp hcomp |>.1
      have hrest := (Prod.mk.injEq _ _ _ _).mp hcomp |>.2
      have hy : y₁ = y₂ := (Prod.mk.injEq _ _ _ _).mp hrest |>.1
      have hsidrev : sid₁.reverse = sid₂.reverse :=
        (Prod.mk.injEq _ _ _ _).mp hrest |>.2
      exact ⟨List.reverse_injective hsidrev, hy, hm⟩
    · rintro ⟨rfl, rfl, rfl⟩
      rfl
  · intro s it₁ it₂ g₁ g₂ hyr hmo
    simp [monthlyRawEntity, hyr, hmo]

/-- C9 witness: concrete triples — distinct station ids with equal
(year, month) yield distinct identifiers; equality of identifiers holds
exactly on equal triples. -/
theorem deye_C9_witness :
    (monthlyRawUid ['A'] 2024 3 = monthlyRawUid ['B'] 2024 3
        ↔ (['A'] = ['B'] ∧ 2024 = 2024 ∧ 3 = 3))
  ∧ (∀ (s : String) (it₁ it₂ : MonthItem) (g₁ g₂ : Val),
        it₁.year = it₂.year → it₁.month = it₂.month →
        (monthlyRawEntity s it₁ g₁).uid = (monthlyRawEntity s it₂ g₂).uid) :=
  deye_C9 ['A'] ['B'] 2024 2024 3 3 (by decide) (by decide)
    (by decide) (by decide) (by decide) (by decide)

end DeyeCloud
